import Mathlib

/-!
Shallow embedding of pypred's AST module (src/pypred/ast.py, Python 2).

The module defines a hierarchy of AST node classes with a shared
post-order `validate` method, per-class `_validate` rules, constructors,
and a mutable `info` dictionary accumulating error diagnostics.

Modelling decisions (each noted again at the definition it concerns):
  * Python values flowing through `value` attributes are modelled by `PyVal`
    (strings, floats as rationals, booleans, None).  The code never does
    float arithmetic; it only type-checks with `isinstance(_, float)` and
    compares values with `==`, so `Rat` is an adequate carrier.
  * A Python attribute that a constructor may leave unset is modelled as an
    `Option` field; `Option.none` means the attribute is absent and reading
    it would raise `AttributeError`.
  * Exceptions escaping a call are modelled with `Except String`; the
    string is the Python exception rendered as text.
  * `re.compile` and `float(string)` are Python standard library services
    external to this repository; they are passed in as explicit function
    parameters (`rc` for regex compilation, `parse` for float parsing) and
    theorems quantify over them.
-/

/-- Model of the Python values the AST code stores and inspects:
strings, floats (as `Rat`; the code only type-tests and `==`-compares
them), booleans, and `None`. -/
inductive PyVal where
  | str (s : String)
  | float (q : Rat)
  | bool (b : Bool)
  | none
deriving DecidableEq, Repr

/-- Python `str()` of a `PyVal`, as used by the `%s` format directives in
the error messages.  Float rendering follows Python's convention of always
showing a decimal part for integral floats. -/
def PyVal.pyStr : PyVal → String
  | .str s => s
  | .float q => if q.den = 1 then toString q.num ++ ".0" else toString q
  | .bool b => if b then "True" else "False"
  | .none => "None"

/-- Is this value a Python string (`isinstance(v, str)`)? -/
def PyVal.isStr : PyVal → Bool
  | .str _ => true
  | _ => false

/-- Is this value a Python float (`isinstance(v, float)`)? -/
def PyVal.isFloat : PyVal → Bool
  | .float _ => true
  | _ => false

/-- Python `==` on `PyVal`.  Crucially, Python's numeric tower makes
`True == 1`, `False == 0` (also against floats), while `None` compares
equal only to itself and strings only to equal strings. -/
def pyEq : PyVal → PyVal → Bool
  | .str a, .str b => a == b
  | .float a, .float b => a == b
  | .bool a, .bool b => a == b
  | .bool a, .float b => (if a then (1 : Rat) else 0) == b
  | .float a, .bool b => a == (if b then (1 : Rat) else 0)
  | .none, .none => true
  | _, _ => false

/-- The `info` dictionary that `validate` threads through the tree.
`errors` models `info["errors"]` (an absent key behaves as the empty
list, since the code only ever reads it through
`info.setdefault("errors", [])`), and `regex` models the insertion-ordered
`info["regex"]` dictionary of pattern to compiler-message entries. -/
structure Info where
  errors : List String
  regex : List (String × String)
deriving DecidableEq, Repr

/-- The fresh dictionary `validate` creates when called with `info=None`. -/
def emptyInfo : Info := ⟨[], []⟩

/-- Append an error string: `info.setdefault("errors", []).append(e)`. -/
def Info.addError (i : Info) (e : String) : Info :=
  { i with errors := i.errors ++ [e] }

/-- Insert-or-overwrite on an insertion-ordered association list, the
behaviour of `d[k] = v` on a Python dict. -/
def updAssoc : List (String × String) → String → String → List (String × String)
  | [], k, v => [(k, v)]
  | (k', v') :: rest, k, v =>
      if k' = k then (k, v) :: rest else (k', v') :: updAssoc rest k v

/-- Record a regex-compilation diagnostic:
`info.setdefault("regex", {})[pattern] = message`. -/
def Info.setRegex (i : Info) (k v : String) : Info :=
  { i with regex := updAssoc i.regex k v }

/-- The AST node hierarchy, one constructor per concrete class.  The first
field of every constructor models the `valid` attribute: `Option.none`
means the attribute was never assigned (no subclass `__init__` calls
`Node.__init__`, so a fresh instance has no `valid` attribute until
`validate` assigns it).  The `regex` constructor additionally carries the
`re` attribute caching the compiled pattern (`Option Unit`, since the
compiled object itself is opaque to this module). -/
inductive Node where
  | logicalOperator (valid : Option Bool) (type : String) (left right : Node)
  | negateOperator (valid : Option Bool) (left : Node)
  | compareOperator (valid : Option Bool) (type : String) (left right : Node)
  | containsOperator (valid : Option Bool) (left right : Node)
  | matchOperator (valid : Option Bool) (left right : Node)
  | regex (valid : Option Bool) (re : Option Unit) (value : PyVal)
  | literal (valid : Option Bool) (value : PyVal)
  | number (valid : Option Bool) (value : PyVal)
  | constant (valid : Option Bool) (value : PyVal)
  | undefined (valid : Option Bool)
  | empty (valid : Option Bool)
deriving DecidableEq, Repr

namespace Node

/-- The `valid` attribute, `Option.none` when it was never assigned. -/
def validAttr : Node → Option Bool
  | .logicalOperator v _ _ _ => v
  | .negateOperator v _ => v
  | .compareOperator v _ _ _ => v
  | .containsOperator v _ _ => v
  | .matchOperator v _ _ => v
  | .regex v _ _ => v
  | .literal v _ => v
  | .number v _ => v
  | .constant v _ => v
  | .undefined v => v
  | .empty v => v

/-- The `left` attribute where present (`hasattr(self, "left")`). -/
def left? : Node → Option Node
  | .logicalOperator _ _ l _ => some l
  | .negateOperator _ l => some l
  | .compareOperator _ _ l _ => some l
  | .containsOperator _ l _ => some l
  | .matchOperator _ l _ => some l
  | _ => Option.none

/-- The `right` attribute where present (`hasattr(self, "right")`). -/
def right? : Node → Option Node
  | .logicalOperator _ _ _ r => some r
  | .compareOperator _ _ _ r => some r
  | .containsOperator _ _ r => some r
  | .matchOperator _ _ r => some r
  | _ => Option.none

/-- The `type` attribute where present (`hasattr(self, "type")`). -/
def type? : Node → Option String
  | .logicalOperator _ t _ _ => some t
  | .compareOperator _ t _ _ => some t
  | _ => Option.none

/-- The `value` attribute where present (`hasattr(self, "value")`). -/
def value? : Node → Option PyVal
  | .regex _ _ v => some v
  | .literal _ v => some v
  | .number _ v => some v
  | .constant _ v => some v
  | _ => Option.none

/-- Python `self.__class__.__name__` for each node class. -/
def className : Node → String
  | .logicalOperator _ _ _ _ => "LogicalOperator"
  | .negateOperator _ _ => "NegateOperator"
  | .compareOperator _ _ _ _ => "CompareOperator"
  | .containsOperator _ _ _ => "ContainsOperator"
  | .matchOperator _ _ _ => "MatchOperator"
  | .regex _ _ _ => "Regex"
  | .literal _ _ => "Literal"
  | .number _ _ => "Number"
  | .constant _ _ => "Constant"
  | .undefined _ => "Undefined"
  | .empty _ => "Empty"

/-- `isinstance(n, Number)`. -/
def isNumber : Node → Bool
  | .number _ _ => true
  | _ => false

/-- `isinstance(n, Literal)`. -/
def isLiteral : Node → Bool
  | .literal _ _ => true
  | _ => false

/-- `isinstance(n, Constant)`. -/
def isConstant : Node → Bool
  | .constant _ _ => true
  | _ => false

/-- `isinstance(n, Regex)`. -/
def isRegex : Node → Bool
  | .regex _ _ _ => true
  | _ => false

/-- Node.__repr__ (ast.py lines 45-56): class name, then the `type`,
`value`, and child class names for whichever of those attributes exist.
Used by the `repr(self.right)` in ContainsOperator's error message. -/
def reprStr (n : Node) : String :=
  n.className
  ++ (match n.type? with | some t => " t:" ++ t | Option.none => "")
  ++ (match n.value? with | some v => " v:" ++ v.pyStr | Option.none => "")
  ++ (match n.left? with | some l => " l:" ++ l.className | Option.none => "")
  ++ (match n.right? with | some r => " r:" ++ r.className | Option.none => "")

end Node

/-- The message of the `TypeError` Python raises when a `%` format string
containing no conversion directive is applied to an argument, as happens
on the error paths of `MatchOperator._validate` (ast.py line 115) and
`Regex._validate` (line 131), whose format strings lack a `%s`. -/
def fmtTypeError : String :=
  "TypeError: not all arguments converted during string formatting"

/-- Per-class `_validate(self, info)`.  It returns the boolean rule
result, the possibly updated node (`Regex._validate` caches the compiled
pattern on success), and the updated `info`; an `Except.error` models an
exception escaping `_validate`.  `rc` models `re.compile`: `Except.ok`
for a pattern that compiles, `Except.error msg` where `msg` stands for
`repr(e)` of the raised compile error. -/
def Node.ownValidate (rc : String → Except String Unit) :
    Node → Info → Except String (Bool × Node × Info)
  -- LogicalOperator._validate (lines 66-72)
  | n@(.logicalOperator _ t _ _), info =>
      if !(t == "and" || t == "or") then
        .ok (false, n, info.addError ("Unknown logical operator " ++ t))
      else .ok (true, n, info)
  -- CompareOperator._validate (lines 86-91)
  | n@(.compareOperator _ t _ _), info =>
      if !(t == ">=" || t == ">" || t == "<" || t == "<=" || t == "=" ||
           t == "!=" || t == "is") then
        .ok (false, n, info.addError ("Unknown compare operator " ++ t))
      else .ok (true, n, info)
  -- ContainsOperator._validate (lines 99-104)
  | n@(.containsOperator _ _ r), info =>
      if !(r.isNumber || r.isLiteral || r.isConstant) then
        .ok (false, n, info.addError
          ("Contains operator must take a literal or constant! Got: " ++ r.reprStr))
      else .ok (true, n, info)
  -- MatchOperator._validate (lines 112-117): on the error path the format
  -- string has no %s directive, so applying % to repr(self.right) raises
  -- TypeError before anything is appended to the (already created) list.
  | n@(.matchOperator _ _ r), info =>
      if !r.isRegex then
        .error fmtTypeError
      else .ok (true, n, info)
  -- Regex._validate (lines 128-144): the non-string error path has the
  -- same missing-%s defect (line 131) and raises TypeError; otherwise the
  -- pattern is compiled, caching the result in self.re on success and
  -- recording the compile error in info on failure.
  | n@(.regex v _ val), info =>
      match val with
      | .str s =>
          match rc s with
          | .ok _ => .ok (true, .regex v (some ()) val, info)
          | .error msg =>
              .ok (false, n,
                (info.addError "Regex compilation failed").setRegex s msg)
      | _ => .error fmtTypeError
  -- Number._validate (lines 159-164)
  | n@(.number _ val), info =>
      if !val.isFloat then
        .ok (false, n, info.addError
          ("Failed to convert number to float! Got: " ++ val.pyStr))
      else .ok (true, n, info)
  -- Constant._validate (lines 171-176): `self.value not in (True, False,
  -- None)` is a membership test by Python ==, so numeric 1/0 pass it.
  | n@(.constant _ val), info =>
      if !(pyEq val (.bool true) || pyEq val (.bool false) || pyEq val .none) then
        .ok (false, n, info.addError ("Invalid Constant! Got: " ++ val.pyStr))
      else .ok (true, n, info)
  -- Node._validate default (lines 30-32): NegateOperator, Literal,
  -- Undefined and Empty inherit it and are always valid.
  | n, info => .ok (true, n, info)

/-- Write `self.valid = b`. -/
def Node.setValid : Node → Bool → Node
  | .logicalOperator _ t l r, b => .logicalOperator (some b) t l r
  | .negateOperator _ l, b => .negateOperator (some b) l
  | .compareOperator _ t l r, b => .compareOperator (some b) t l r
  | .containsOperator _ l r, b => .containsOperator (some b) l r
  | .matchOperator _ l r, b => .matchOperator (some b) l r
  | .regex _ re v, b => .regex (some b) re v
  | .literal _ v, b => .literal (some b) v
  | .number _ v, b => .number (some b) v
  | .constant _ v, b => .constant (some b) v
  | .undefined _, b => .undefined (some b)
  | .empty _, b => .empty (some b)

/-- Node.validate (ast.py lines 14-28).  Post-order: recursively validate
`left` when present, then `right` when present, then run this node's own
`_validate` and store its result in `self.valid`.  The result carries the
updated tree, the updated `info`, and the Python return value of the call,
which is always `None` since the method body has no return statement; an
`Except.error` models an exception escaping the call. -/
def Node.validate (rc : String → Except String Unit) :
    Node → Info → Except String (Node × Info × PyVal)
  | .logicalOperator v t l r, info =>
      match l.validate rc info with
      | .error e => .error e
      | .ok (l', i1, _) =>
        match r.validate rc i1 with
        | .error e => .error e
        | .ok (r', i2, _) =>
          match (Node.logicalOperator v t l' r').ownValidate rc i2 with
          | .error e => .error e
          | .ok (b, n', i3) => .ok (n'.setValid b, i3, PyVal.none)
  | .negateOperator v l, info =>
      match l.validate rc info with
      | .error e => .error e
      | .ok (l', i1, _) =>
        match (Node.negateOperator v l').ownValidate rc i1 with
        | .error e => .error e
        | .ok (b, n', i2) => .ok (n'.setValid b, i2, PyVal.none)
  | .compareOperator v t l r, info =>
      match l.validate rc info with
      | .error e => .error e
      | .ok (l', i1, _) =>
        match r.validate rc i1 with
        | .error e => .error e
        | .ok (r', i2, _) =>
          match (Node.compareOperator v t l' r').ownValidate rc i2 with
          | .error e => .error e
          | .ok (b, n', i3) => .ok (n'.setValid b, i3, PyVal.none)
  | .containsOperator v l r, info =>
      match l.validate rc info with
      | .error e => .error e
      | .ok (l', i1, _) =>
        match r.validate rc i1 with
        | .error e => .error e
        | .ok (r', i2, _) =>
          match (Node.containsOperator v l' r').ownValidate rc i2 with
          | .error e => .error e
          | .ok (b, n', i3) => .ok (n'.setValid b, i3, PyVal.none)
  | .matchOperator v l r, info =>
      match l.validate rc info with
      | .error e => .error e
      | .ok (l', i1, _) =>
        match r.validate rc i1 with
        | .error e => .error e
        | .ok (r', i2, _) =>
          match (Node.matchOperator v l' r').ownValidate rc i2 with
          | .error e => .error e
          | .ok (b, n', i3) => .ok (n'.setValid b, i3, PyVal.none)
  | n, info =>
      match n.ownValidate rc info with
      | .error e => .error e
      | .ok (b, n', i1) => .ok (n'.setValid b, i1, PyVal.none)

/-! Constructors.  Each subclass overrides `__init__` without calling
`Node.__init__`, so no constructor assigns the `valid` attribute; it is
`Option.none` (absent) on every fresh node. -/

/-- LogicalOperator.__init__ (lines 61-64). -/
def mkLogicalOperator (op : String) (l r : Node) : Node :=
  .logicalOperator Option.none op l r

/-- NegateOperator.__init__ (lines 76-77). -/
def mkNegateOperator (expr : Node) : Node :=
  .negateOperator Option.none expr

/-- CompareOperator.__init__ (lines 81-84). -/
def mkCompareOperator (comparison : String) (l r : Node) : Node :=
  .compareOperator Option.none comparison l r

/-- ContainsOperator.__init__ (lines 95-97). -/
def mkContainsOperator (l r : Node) : Node :=
  .containsOperator Option.none l r

/-- MatchOperator.__init__ (lines 108-110). -/
def mkMatchOperator (l r : Node) : Node :=
  .matchOperator Option.none l r

/-- The argument of Regex.__init__: either a raw Python value or an
existing Node (which the constructor unpacks). -/
inductive RegexArg where
  | val (v : PyVal)
  | node (n : Node)

/-- The exception raised by reading `value.value` on a node whose class
never assigns a `value` attribute. -/
def attributeError : String := "AttributeError: object has no attribute value"

/-- Regex.__init__ (lines 121-126): if given a Node, unpack it and take
its `value` attribute — which raises AttributeError when that node's
class has no `value` attribute (the operator classes, Undefined, Empty). -/
def mkRegex : RegexArg → Except String Node
  | .val v => .ok (.regex Option.none Option.none v)
  | .node n =>
      match n.value? with
      | some v => .ok (.regex Option.none Option.none v)
      | Option.none => .error attributeError

/-- Literal.__init__ (lines 148-149). -/
def mkLiteral (v : PyVal) : Node := .literal Option.none v

/-- Python `float(v)`: succeeds on floats and booleans, parses strings
through the standard library parser (abstracted as `parse`), and fails
(raises) on `None`. -/
def floatCoerce (parse : String → Option Rat) : PyVal → Option Rat
  | .float q => some q
  | .bool b => some (if b then 1 else 0)
  | .str s => parse s
  | .none => Option.none

/-- Number.__init__ (lines 153-157): try `float(value)`; on failure keep
the raw value unchanged. -/
def mkNumber (parse : String → Option Rat) (v : PyVal) : Node :=
  match floatCoerce parse v with
  | some q => .number Option.none (.float q)
  | Option.none => .number Option.none v

/-- Constant.__init__ (lines 168-169). -/
def mkConstant (v : PyVal) : Node := .constant Option.none v

/-- Undefined.__init__ (lines 180-181). -/
def mkUndefined : Node := .undefined Option.none

/-- Empty.__init__ (lines 185-186). -/
def mkEmpty : Node := .empty Option.none

/-! Derived characterizations of a validation run, used to state and
prove the theorems below.  They are definitions on the model, mirroring
the recursion of `validate`. -/

/-- Does `rc s` succeed? -/
def exceptOk : Except String Unit → Bool
  | .ok _ => true
  | .error _ => false

/-- True when validating this tree reaches no exception-raising case,
i.e. no MatchOperator whose right child is not a Regex and no Regex node
whose value is not a string (the two missing-%s TypeError sites). -/
def Node.noRaise : Node → Bool
  | .logicalOperator _ _ l r => noRaise l && noRaise r
  | .negateOperator _ l => noRaise l
  | .compareOperator _ _ l r => noRaise l && noRaise r
  | .containsOperator _ l r => noRaise l && noRaise r
  | .matchOperator _ l r => noRaise l && noRaise r && r.isRegex
  | .regex _ _ v => v.isStr
  | _ => true

/-- The tree produced by a successful `validate` run: every node's
`valid` attribute is set to the result of its own rule, and successfully
compiled Regex nodes cache their compiled pattern. -/
def Node.validatedTree (rc : String → Except String Unit) : Node → Node
  | .logicalOperator _ t l r =>
      .logicalOperator (some (t == "and" || t == "or")) t
        (validatedTree rc l) (validatedTree rc r)
  | .negateOperator _ l => .negateOperator (some true) (validatedTree rc l)
  | .compareOperator _ t l r =>
      .compareOperator
        (some (t == ">=" || t == ">" || t == "<" || t == "<=" || t == "=" ||
               t == "!=" || t == "is")) t
        (validatedTree rc l) (validatedTree rc r)
  | .containsOperator _ l r =>
      let r' := validatedTree rc r
      .containsOperator (some (r'.isNumber || r'.isLiteral || r'.isConstant))
        (validatedTree rc l) r'
  | .matchOperator _ l r =>
      let r' := validatedTree rc r
      .matchOperator (some r'.isRegex) (validatedTree rc l) r'
  | .regex _ re v =>
      match v with
      | .str s =>
          match rc s with
          | .ok _ => .regex (some true) (some ()) v
          | .error _ => .regex (some false) re v
      | _ => .regex (some false) re v
  | .literal _ v => .literal (some true) v
  | .number _ v => .number (some v.isFloat) v
  | .constant _ v =>
      .constant
        (some (pyEq v (.bool true) || pyEq v (.bool false) || pyEq v .none)) v
  | .undefined _ => .undefined (some true)
  | .empty _ => .empty (some true)

/-- The `info` record produced by a successful `validate` run starting
from `i`: the post-order accumulation of every node's own diagnostics. -/
def Node.collectInfo (rc : String → Except String Unit) : Node → Info → Info
  | .logicalOperator _ t l r, i =>
      let i2 := collectInfo rc r (collectInfo rc l i)
      if !(t == "and" || t == "or") then
        i2.addError ("Unknown logical operator " ++ t)
      else i2
  | .negateOperator _ l, i => collectInfo rc l i
  | .compareOperator _ t l r, i =>
      let i2 := collectInfo rc r (collectInfo rc l i)
      if !(t == ">=" || t == ">" || t == "<" || t == "<=" || t == "=" ||
           t == "!=" || t == "is") then
        i2.addError ("Unknown compare operator " ++ t)
      else i2
  | .containsOperator _ l r, i =>
      let i2 := collectInfo rc r (collectInfo rc l i)
      let r' := validatedTree rc r
      if !(r'.isNumber || r'.isLiteral || r'.isConstant) then
        i2.addError
          ("Contains operator must take a literal or constant! Got: " ++ r'.reprStr)
      else i2
  | .matchOperator _ l r, i => collectInfo rc r (collectInfo rc l i)
  | .regex _ _ v, i =>
      match v with
      | .str s =>
          match rc s with
          | .ok _ => i
          | .error msg => (i.addError "Regex compilation failed").setRegex s msg
      | _ => i
  | .literal _ _, i => i
  | .number _ v, i =>
      if !v.isFloat then
        i.addError ("Failed to convert number to float! Got: " ++ v.pyStr)
      else i
  | .constant _ v, i =>
      if !(pyEq v (.bool true) || pyEq v (.bool false) || pyEq v .none) then
        i.addError ("Invalid Constant! Got: " ++ v.pyStr)
      else i
  | .undefined _, i => i
  | .empty _, i => i

/-- Every node of the tree has its `valid` attribute set to true. -/
def Node.allValidTrue : Node → Bool
  | .logicalOperator v _ l r => v == some true && allValidTrue l && allValidTrue r
  | .negateOperator v l => v == some true && allValidTrue l
  | .compareOperator v _ l r => v == some true && allValidTrue l && allValidTrue r
  | .containsOperator v l r => v == some true && allValidTrue l && allValidTrue r
  | .matchOperator v l r => v == some true && allValidTrue l && allValidTrue r
  | n => n.validAttr == some true

/-- The boolean a node's own `_validate` rule returns on it (assuming the
rule returns rather than raising). -/
def Node.ownRule (rc : String → Except String Unit) : Node → Bool
  | .logicalOperator _ t _ _ => t == "and" || t == "or"
  | .negateOperator _ _ => true
  | .compareOperator _ t _ _ =>
      t == ">=" || t == ">" || t == "<" || t == "<=" || t == "=" ||
      t == "!=" || t == "is"
  | .containsOperator _ _ r => r.isNumber || r.isLiteral || r.isConstant
  | .matchOperator _ _ r => r.isRegex
  | .regex _ _ v =>
      match v with
      | .str s => exceptOk (rc s)
      | _ => false
  | .literal _ _ => true
  | .number _ v => v.isFloat
  | .constant _ v => pyEq v (.bool true) || pyEq v (.bool false) || pyEq v .none
  | .undefined _ => true
  | .empty _ => true

/-- Every node of the tree has `valid` equal to exactly its own rule's
result — not a conjunction with its children's results. -/
def Node.allOwnValid (rc : String → Except String Unit) : Node → Bool
  | n@(.logicalOperator _ _ l r) =>
      n.validAttr == some (n.ownRule rc) && allOwnValid rc l && allOwnValid rc r
  | n@(.negateOperator _ l) => n.validAttr == some (n.ownRule rc) && allOwnValid rc l
  | n@(.compareOperator _ _ l r) =>
      n.validAttr == some (n.ownRule rc) && allOwnValid rc l && allOwnValid rc r
  | n@(.containsOperator _ l r) =>
      n.validAttr == some (n.ownRule rc) && allOwnValid rc l && allOwnValid rc r
  | n@(.matchOperator _ l r) =>
      n.validAttr == some (n.ownRule rc) && allOwnValid rc l && allOwnValid rc r
  | n => n.validAttr == some (n.ownRule rc)

/-- The structural well-formedness rules of the validation contract: all
operator type strings in their enumerated sets, ContainsOperator.right a
Number/Literal/Constant, MatchOperator.right a Regex, Regex values
strings that compile under `rc`, Number values floats, Constant values
among True/False/None. -/
def Node.wf (rc : String → Except String Unit) : Node → Bool
  | .logicalOperator _ t l r => (t == "and" || t == "or") && wf rc l && wf rc r
  | .negateOperator _ l => wf rc l
  | .compareOperator _ t l r =>
      (t == ">=" || t == ">" || t == "<" || t == "<=" || t == "=" ||
       t == "!=" || t == "is") && wf rc l && wf rc r
  | .containsOperator _ l r =>
      (r.isNumber || r.isLiteral || r.isConstant) && wf rc l && wf rc r
  | .matchOperator _ l r => r.isRegex && wf rc l && wf rc r
  | .regex _ _ v =>
      match v with
      | .str s => exceptOk (rc s)
      | _ => false
  | .literal _ _ => true
  | .number _ v => v.isFloat
  | .constant _ v => v == .bool true || v == .bool false || v == .none
  | .undefined _ => true
  | .empty _ => true

/-! Helper lemmas. -/

theorem validatedTree_isNumber (rc : String → Except String Unit) (n : Node) :
    (n.validatedTree rc).isNumber = n.isNumber := by
  cases n with
  | regex v re val =>
      cases val <;> simp only [Node.validatedTree, Node.isNumber]
      cases rc _ <;> rfl
  | _ => rfl

theorem validatedTree_isLiteral (rc : String → Except String Unit) (n : Node) :
    (n.validatedTree rc).isLiteral = n.isLiteral := by
  cases n with
  | regex v re val =>
      cases val <;> simp only [Node.validatedTree, Node.isLiteral]
      cases rc _ <;> rfl
  | _ => rfl

theorem validatedTree_isConstant (rc : String → Except String Unit) (n : Node) :
    (n.validatedTree rc).isConstant = n.isConstant := by
  cases n with
  | regex v re val =>
      cases val <;> simp only [Node.validatedTree, Node.isConstant]
      cases rc _ <;> rfl
  | _ => rfl

theorem validatedTree_isRegex (rc : String → Except String Unit) (n : Node) :
    (n.validatedTree rc).isRegex = n.isRegex := by
  cases n with
  | regex v re val =>
      cases val <;> simp only [Node.validatedTree, Node.isRegex]
      cases rc _ <;> rfl
  | _ => rfl

/-- Characterization of a successful run: when no exception-raising case
is reached, `validate` returns the validated tree, the post-order
accumulated diagnostics, and Python `None`. -/
theorem validate_eq (rc : String → Except String Unit) :
    ∀ (n : Node) (i : Info), n.noRaise = true →
      n.validate rc i = .ok (n.validatedTree rc, n.collectInfo rc i, PyVal.none) := by
  intro n
  induction n with
  | logicalOperator v t l r ihl ihr =>
      intro i h
      simp only [Node.noRaise, Bool.and_eq_true] at h
      simp only [Node.validate, ihl i h.1, ihr _ h.2, Node.ownValidate,
        Node.validatedTree, Node.collectInfo]
      cases hc : (t == "and" || t == "or") <;> simp [hc, Node.setValid]
  | negateOperator v l ihl =>
      intro i h
      simp only [Node.noRaise] at h
      simp [Node.validate, ihl i h, Node.ownValidate, Node.setValid,
        Node.validatedTree, Node.collectInfo]
  | compareOperator v t l r ihl ihr =>
      intro i h
      simp only [Node.noRaise, Bool.and_eq_true] at h
      simp only [Node.validate, ihl i h.1, ihr _ h.2, Node.ownValidate,
        Node.validatedTree, Node.collectInfo]
      cases hc : (t == ">=" || t == ">" || t == "<" || t == "<=" || t == "=" ||
          t == "!=" || t == "is") <;> simp [hc, Node.setValid]
  | containsOperator v l r ihl ihr =>
      intro i h
      simp only [Node.noRaise, Bool.and_eq_true] at h
      simp only [Node.validate, ihl i h.1, ihr _ h.2, Node.ownValidate,
        Node.validatedTree, Node.collectInfo]
      cases hc : ((Node.validatedTree rc r).isNumber ||
          (Node.validatedTree rc r).isLiteral ||
          (Node.validatedTree rc r).isConstant) <;> simp [hc, Node.setValid]
  | matchOperator v l r ihl ihr =>
      intro i h
      simp only [Node.noRaise, Bool.and_eq_true] at h
      simp only [Node.validate, ihl i h.1.1, ihr _ h.1.2, Node.ownValidate,
        Node.validatedTree, Node.collectInfo, validatedTree_isRegex, h.2]
      simp [Node.setValid]
  | regex v re val =>
      intro i h
      simp only [Node.noRaise] at h
      cases val with
      | str s =>
          simp only [Node.validate, Node.ownValidate, Node.validatedTree,
            Node.collectInfo]
          cases rc s <;> simp [Node.setValid]
      | float q => simp [PyVal.isStr] at h
      | bool b => simp [PyVal.isStr] at h
      | none => simp [PyVal.isStr] at h
  | literal v val =>
      intro i h
      simp [Node.validate, Node.ownValidate, Node.setValid, Node.validatedTree,
        Node.collectInfo]
  | number v val =>
      intro i h
      simp only [Node.validate, Node.ownValidate, Node.validatedTree,
        Node.collectInfo]
      cases hv : val.isFloat <;> simp [hv, Node.setValid]
  | constant v val =>
      intro i h
      simp only [Node.validate, Node.ownValidate, Node.validatedTree,
        Node.collectInfo]
      cases hc : (pyEq val (PyVal.bool true) || pyEq val (PyVal.bool false) ||
          pyEq val PyVal.none) <;> simp [hc, Node.setValid]
  | undefined v =>
      intro i h
      simp [Node.validate, Node.ownValidate, Node.setValid, Node.validatedTree,
        Node.collectInfo]
  | empty v =>
      intro i h
      simp [Node.validate, Node.ownValidate, Node.setValid, Node.validatedTree,
        Node.collectInfo]

/-- Characterization of a failing run: as soon as the tree contains a
raising case (a MatchOperator whose right child is not a Regex, or a
Regex node whose value is not a string), the TypeError from the
missing-%s format string propagates out of `validate`. -/
theorem validate_raises (rc : String → Except String Unit) :
    ∀ (n : Node) (i : Info), n.noRaise = false →
      n.validate rc i = .error fmtTypeError := by
  intro n
  induction n with
  | logicalOperator v t l r ihl ihr =>
      intro i h
      simp only [Node.noRaise, Bool.and_eq_false_iff] at h
      cases hl : l.noRaise with
      | false => simp [Node.validate, ihl i hl]
      | true =>
          have hr : r.noRaise = false := by
            cases h with
            | inl hcontra => rw [hl] at hcontra; exact absurd hcontra (by simp)
            | inr hr => exact hr
          simp [Node.validate, validate_eq rc l i hl, ihr _ hr]
  | negateOperator v l ihl =>
      intro i h
      simp only [Node.noRaise] at h
      simp [Node.validate, ihl i h]
  | compareOperator v t l r ihl ihr =>
      intro i h
      simp only [Node.noRaise, Bool.and_eq_false_iff] at h
      cases hl : l.noRaise with
      | false => simp [Node.validate, ihl i hl]
      | true =>
          have hr : r.noRaise = false := by
            cases h with
            | inl hcontra => rw [hl] at hcontra; exact absurd hcontra (by simp)
            | inr hr => exact hr
          simp [Node.validate, validate_eq rc l i hl, ihr _ hr]
  | containsOperator v l r ihl ihr =>
      intro i h
      simp only [Node.noRaise, Bool.and_eq_false_iff] at h
      cases hl : l.noRaise with
      | false => simp [Node.validate, ihl i hl]
      | true =>
          have hr : r.noRaise = false := by
            cases h with
            | inl hcontra => rw [hl] at hcontra; exact absurd hcontra (by simp)
            | inr hr => exact hr
          simp [Node.validate, validate_eq rc l i hl, ihr _ hr]
  | matchOperator v l r ihl ihr =>
      intro i h
      simp only [Node.noRaise, Bool.and_eq_false_iff] at h
      cases hl : l.noRaise with
      | false => simp [Node.validate, ihl i hl]
      | true =>
          cases hr : r.noRaise with
          | false => simp [Node.validate, validate_eq rc l i hl, ihr _ hr]
          | true =>
              have hreg : r.isRegex = false := by
                rcases h with h | h
                · rcases h with h | h
                  · rw [hl] at h; exact absurd h (by simp)
                  · rw [hr] at h; exact absurd h (by simp)
                · exact h
              simp [Node.validate, validate_eq rc l i hl, validate_eq rc r _ hr,
                Node.ownValidate, validatedTree_isRegex, hreg]
  | regex v re val =>
      intro i h
      simp only [Node.noRaise] at h
      cases val with
      | str s => simp [PyVal.isStr] at h
      | float q => simp [Node.validate, Node.ownValidate]
      | bool b => simp [Node.validate, Node.ownValidate]
      | none => simp [Node.validate, Node.ownValidate]
  | literal v val => intro i h; simp [Node.noRaise] at h
  | number v val => intro i h; simp [Node.noRaise] at h
  | constant v val => intro i h; simp [Node.noRaise] at h
  | undefined v => intro i h; simp [Node.noRaise] at h
  | empty v => intro i h; simp [Node.noRaise] at h

theorem wf_noRaise (rc : String → Except String Unit) :
    ∀ n : Node, n.wf rc = true → n.noRaise = true := by
  intro n
  induction n with
  | logicalOperator v t l r ihl ihr =>
      intro h
      simp only [Node.wf, Bool.and_eq_true] at h
      simp [Node.noRaise, ihl h.1.2, ihr h.2]
  | negateOperator v l ihl =>
      intro h
      simp only [Node.wf] at h
      simp [Node.noRaise, ihl h]
  | compareOperator v t l r ihl ihr =>
      intro h
      simp only [Node.wf, Bool.and_eq_true] at h
      simp [Node.noRaise, ihl h.1.2, ihr h.2]
  | containsOperator v l r ihl ihr =>
      intro h
      simp only [Node.wf, Bool.and_eq_true] at h
      simp [Node.noRaise, ihl h.1.2, ihr h.2]
  | matchOperator v l r ihl ihr =>
      intro h
      simp only [Node.wf, Bool.and_eq_true] at h
      simp [Node.noRaise, ihl h.1.2, ihr h.2, h.1.1]
  | regex v re val =>
      intro h
      cases val <;> simp_all [Node.wf, Node.noRaise, PyVal.isStr]
  | literal v val => intro h; rfl
  | number v val => intro h; rfl
  | constant v val => intro h; rfl
  | undefined v => intro h; rfl
  | empty v => intro h; rfl

theorem wf_collectInfo (rc : String → Except String Unit) :
    ∀ n : Node, n.wf rc = true → ∀ i : Info, n.collectInfo rc i = i := by
  intro n
  induction n with
  | logicalOperator v t l r ihl ihr =>
      intro h i
      simp only [Node.wf, Bool.and_eq_true] at h
      simp [Node.collectInfo, h.1.1, ihl h.1.2, ihr h.2]
  | negateOperator v l ihl =>
      intro h i
      simp only [Node.wf] at h
      simp [Node.collectInfo, ihl h]
  | compareOperator v t l r ihl ihr =>
      intro h i
      simp only [Node.wf, Bool.and_eq_true] at h
      simp [Node.collectInfo, h.1.1, ihl h.1.2, ihr h.2]
  | containsOperator v l r ihl ihr =>
      intro h i
      simp only [Node.wf, Bool.and_eq_true] at h
      simp [Node.collectInfo, validatedTree_isNumber, validatedTree_isLiteral,
        validatedTree_isConstant, h.1.1, ihl h.1.2, ihr h.2]
  | matchOperator v l r ihl ihr =>
      intro h i
      simp only [Node.wf, Bool.and_eq_true] at h
      simp [Node.collectInfo, ihl h.1.2, ihr h.2]
  | regex v re val =>
      intro h i
      cases val with
      | str s =>
          simp only [Node.wf] at h
          cases hrc : rc s with
          | ok u => simp [Node.collectInfo, hrc]
          | error msg => rw [hrc] at h; simp [exceptOk] at h
      | float q => simp [Node.wf] at h
      | bool b => simp [Node.wf] at h
      | none => simp [Node.wf] at h
  | literal v val => intro h i; rfl
  | number v val =>
      intro h i
      simp only [Node.wf] at h
      simp [Node.collectInfo, h]
  | constant v val =>
      intro h i
      simp only [Node.wf, Bool.or_eq_true, beq_iff_eq] at h
      rcases h with (h | h) | h <;> subst h <;> simp [Node.collectInfo, pyEq]
  | undefined v => intro h i; rfl
  | empty v => intro h i; rfl

theorem wf_allValidTrue (rc : String → Except String Unit) :
    ∀ n : Node, n.wf rc = true → (n.validatedTree rc).allValidTrue = true := by
  intro n
  induction n with
  | logicalOperator v t l r ihl ihr =>
      intro h
      simp only [Node.wf, Bool.and_eq_true] at h
      simp [Node.validatedTree, Node.allValidTrue, h.1.1, ihl h.1.2, ihr h.2]
  | negateOperator v l ihl =>
      intro h
      simp only [Node.wf] at h
      simp [Node.validatedTree, Node.allValidTrue, ihl h]
  | compareOperator v t l r ihl ihr =>
      intro h
      simp only [Node.wf, Bool.and_eq_true] at h
      simp [Node.validatedTree, Node.allValidTrue, h.1.1, ihl h.1.2, ihr h.2]
  | containsOperator v l r ihl ihr =>
      intro h
      simp only [Node.wf, Bool.and_eq_true] at h
      simp [Node.validatedTree, Node.allValidTrue, validatedTree_isNumber,
        validatedTree_isLiteral, validatedTree_isConstant, h.1.1, ihl h.1.2, ihr h.2]
  | matchOperator v l r ihl ihr =>
      intro h
      simp only [Node.wf, Bool.and_eq_true] at h
      simp [Node.validatedTree, Node.allValidTrue, validatedTree_isRegex, h.1.1,
        ihl h.1.2, ihr h.2]
  | regex v re val =>
      intro h
      cases val with
      | str s =>
          simp only [Node.wf] at h
          cases hrc : rc s with
          | ok u => simp [Node.validatedTree, Node.allValidTrue, hrc, Node.validAttr]
          | error msg => rw [hrc] at h; simp [exceptOk] at h
      | float q => simp [Node.wf] at h
      | bool b => simp [Node.wf] at h
      | none => simp [Node.wf] at h
  | literal v val => intro h; simp [Node.validatedTree, Node.allValidTrue, Node.validAttr]
  | number v val =>
      intro h
      simp only [Node.wf] at h
      simp [Node.validatedTree, Node.allValidTrue, Node.validAttr, h]
  | constant v val =>
      intro h
      simp only [Node.wf, Bool.or_eq_true, beq_iff_eq] at h
      rcases h with (h | h) | h <;> subst h <;>
        simp [Node.validatedTree, Node.allValidTrue, Node.validAttr, pyEq]
  | undefined v => intro h; simp [Node.validatedTree, Node.allValidTrue, Node.validAttr]
  | empty v => intro h; simp [Node.validatedTree, Node.allValidTrue, Node.validAttr]

theorem allOwnValid_validatedTree (rc : String → Except String Unit) :
    ∀ n : Node, (n.validatedTree rc).allOwnValid rc = true := by
  intro n
  induction n with
  | logicalOperator v t l r ihl ihr =>
      simp [Node.validatedTree, Node.allOwnValid, Node.validAttr, Node.ownRule,
        ihl, ihr]
  | negateOperator v l ihl =>
      simp [Node.validatedTree, Node.allOwnValid, Node.validAttr, Node.ownRule, ihl]
  | compareOperator v t l r ihl ihr =>
      simp [Node.validatedTree, Node.allOwnValid, Node.validAttr, Node.ownRule,
        ihl, ihr]
  | containsOperator v l r ihl ihr =>
      simp [Node.validatedTree, Node.allOwnValid, Node.validAttr, Node.ownRule,
        ihl, ihr]
  | matchOperator v l r ihl ihr =>
      simp [Node.validatedTree, Node.allOwnValid, Node.validAttr, Node.ownRule,
        ihl, ihr]
  | regex v re val =>
      cases val with
      | str s =>
          cases hrc : rc s with
          | ok u =>
              cases u
              simp [Node.validatedTree, Node.allOwnValid, Node.validAttr,
                Node.ownRule, hrc, exceptOk]
          | error msg =>
              simp [Node.validatedTree, Node.allOwnValid, Node.validAttr,
                Node.ownRule, hrc, exceptOk]
      | float q => simp [Node.validatedTree, Node.allOwnValid, Node.validAttr, Node.ownRule]
      | bool b => simp [Node.validatedTree, Node.allOwnValid, Node.validAttr, Node.ownRule]
      | none => simp [Node.validatedTree, Node.allOwnValid, Node.validAttr, Node.ownRule]
  | literal v val => simp [Node.validatedTree, Node.allOwnValid, Node.validAttr, Node.ownRule]
  | number v val => simp [Node.validatedTree, Node.allOwnValid, Node.validAttr, Node.ownRule]
  | constant v val => simp [Node.validatedTree, Node.allOwnValid, Node.validAttr, Node.ownRule]
  | undefined v => simp [Node.validatedTree, Node.allOwnValid, Node.validAttr, Node.ownRule]
  | empty v => simp [Node.validatedTree, Node.allOwnValid, Node.validAttr, Node.ownRule]

/-! Concrete instances used by witnesses and counterexamples. -/

/-- A concrete model of `re.compile`: the pattern consisting of a single
opening bracket fails to compile (an unterminated character class), any
other pattern compiles. -/
def rc0 : String → Except String Unit :=
  fun s => if s == "[" then .error "unexpected end of regular expression" else .ok ()

/-- A concrete model of float-literal parsing on which every string fails
to parse, as "abc" does for Python float(). -/
def parse0 : String → Option Rat := fun _ => Option.none

/-- A well-formed sample tree: (5 > 3) and ("x" matches Regex("abc")). -/
def sampleWfTree : Node :=
  Node.logicalOperator Option.none "and"
    (Node.compareOperator Option.none ">"
      (Node.number Option.none (.float 5))
      (Node.number Option.none (.float 3)))
    (Node.matchOperator Option.none
      (Node.literal Option.none (.str "x"))
      (Node.regex Option.none Option.none (.str "abc")))

/-- C1: for every node tree that violates none of the per-variant
validation rules (operator type strings in their enumerated sets,
ContainsOperator.right a Number/Literal/Constant, MatchOperator.right a
Regex, Regex values strings that compile, Number values floats, Constant
values among True/False/None), validate finishes with an empty error list
(no error recorded, and the info record untouched) and with valid set to
true on every node of the tree. -/
theorem claim_C1 (rc : String → Except String Unit) (n : Node)
    (h : n.wf rc = true) :
    n.validate rc emptyInfo = .ok (n.validatedTree rc, emptyInfo, PyVal.none) ∧
    (n.validatedTree rc).allValidTrue = true := by
  constructor
  · have he := validate_eq rc n emptyInfo (wf_noRaise rc n h)
    rwa [wf_collectInfo rc n h emptyInfo] at he
  · exact wf_allValidTrue rc n h

/-- C1 witness: the sample tree is well-formed, validates cleanly, and
ends all-valid. -/
theorem claim_C1_witness :
    sampleWfTree.wf rc0 = true ∧
    (sampleWfTree.validate rc0 emptyInfo =
        .ok (sampleWfTree.validatedTree rc0, emptyInfo, PyVal.none) ∧
      (sampleWfTree.validatedTree rc0).allValidTrue = true) :=
  ⟨rfl, claim_C1 rc0 sampleWfTree rfl⟩

/-- C2: the claim states that validate never raises for a semantic error
and reports every such case in the error list.  The code contradicts it:
MatchOperator._validate's error message (ast.py line 115) applies a
format string with no conversion directive to repr(self.right), so
validating a MatchOperator whose right operand is a Literal raises
TypeError instead of appending the error (the same defect sits on
Regex._validate's non-string path, line 131).  This theorem evaluates the
code at the failing input. -/
theorem claim_C2_match_raises :
    (Node.matchOperator Option.none (Node.literal Option.none (.str "a"))
        (Node.literal Option.none (.str "b"))).validate rc0 emptyInfo
      = .error fmtTypeError := by rfl

/-- C3: the claim states that the post-order walk visits every node and
collects every error in one pass.  Because of the TypeError of C2 the
walk can abort: in the tree ("a" matches "b") and Constant("maybe"), the
left subtree's MatchOperator raises, so the right sibling Constant node
is never visited and its error is never collected — validate returns
the propagating exception instead of any error list. -/
theorem claim_C3_walk_aborts :
    (Node.logicalOperator Option.none "and"
        (Node.matchOperator Option.none (Node.literal Option.none (.str "a"))
          (Node.literal Option.none (.str "b")))
        (Node.constant Option.none (.str "maybe"))).validate rc0 emptyInfo
      = .error fmtTypeError := by rfl

/-- C4: whenever validate returns, every node of the resulting tree has
its valid field equal to exactly the result of that node's own rule, not
a conjunction with its children's results. -/
theorem claim_C4 (rc : String → Except String Unit) (n : Node) (i : Info)
    (t' : Node) (i' : Info) (r : PyVal)
    (h : n.validate rc i = .ok (t', i', r)) :
    t'.allOwnValid rc = true := by
  cases hnr : n.noRaise with
  | true =>
      have he := validate_eq rc n i hnr
      rw [he] at h
      simp only [Except.ok.injEq, Prod.mk.injEq] at h
      rw [← h.1]
      exact allOwnValid_validatedTree rc n
  | false =>
      rw [validate_raises rc n i hnr] at h
      exact absurd h (by simp)

/-- C4 witness: a conjunction with an invalid Constant child — the child
ends invalid while the parent's own rule still reports true. -/
theorem claim_C4_witness :
    ((Node.logicalOperator Option.none "and"
        (Node.constant Option.none (.str "maybe"))
        (Node.literal Option.none (.str "x"))).validate rc0 emptyInfo =
      .ok (Node.logicalOperator (some true) "and"
            (Node.constant (some false) (.str "maybe"))
            (Node.literal (some true) (.str "x")),
          ⟨["Invalid Constant! Got: maybe"], []⟩, PyVal.none)) ∧
    (Node.logicalOperator (some true) "and"
        (Node.constant (some false) (.str "maybe"))
        (Node.literal (some true) (.str "x"))).allOwnValid rc0 = true :=
  ⟨by rfl,
    claim_C4 rc0
      (Node.logicalOperator Option.none "and"
        (Node.constant Option.none (.str "maybe"))
        (Node.literal Option.none (.str "x")))
      emptyInfo _ _ _ (by rfl)⟩

/-- C5 counterexample: the claim states that validate returns the boolean
it stores into valid.  The method body has no return statement, so the
call returns None: here a valid Constant stores valid=true but the call
returns None, which is not the boolean true. -/
theorem claim_C5_counterexample :
    (Node.constant Option.none (.bool true)).validate rc0 emptyInfo =
      .ok (Node.constant (some true) (.bool true), emptyInfo, PyVal.none) ∧
    (Node.constant (some true) (.bool true)).validAttr = some true ∧
    PyVal.none ≠ PyVal.bool true :=
  ⟨by rfl, rfl, by decide⟩

/-- C5 amended: validate stores the result of the node's own rule into
the valid field but returns None (its docstring notwithstanding); no
boolean is returned to the caller. -/
theorem claim_C5_amended (rc : String → Except String Unit) (n : Node)
    (i : Info) (h : n.noRaise = true) :
    n.validate rc i = .ok (n.validatedTree rc, n.collectInfo rc i, PyVal.none) :=
  validate_eq rc n i h

/-- C5 witness: a Literal leaf validates and the call returns None. -/
theorem claim_C5_witness :
    (Node.literal Option.none (.str "a")).noRaise = true ∧
    (Node.literal Option.none (.str "a")).validate rc0 emptyInfo =
      .ok ((Node.literal Option.none (.str "a")).validatedTree rc0,
        (Node.literal Option.none (.str "a")).collectInfo rc0 emptyInfo,
        PyVal.none) :=
  ⟨rfl, claim_C5_amended rc0 (Node.literal Option.none (.str "a")) emptyInfo rfl⟩

/-- C6: when a Regex node's string value fails to compile, its validation
appends the error "Regex compilation failed", records the underlying
compiler message in the info record's regex mapping under the pattern,
and returns false; when compilation succeeds, the compiled matcher is
cached on the node (the re field) and validation returns true. -/
theorem claim_C6 (rc : String → Except String Unit) (v : Option Bool)
    (re : Option Unit) (s : String) (i : Info) :
    (∀ msg, rc s = .error msg →
      (Node.regex v re (.str s)).ownValidate rc i =
        .ok (false, Node.regex v re (.str s),
          (i.addError "Regex compilation failed").setRegex s msg)) ∧
    (rc s = .ok () →
      (Node.regex v re (.str s)).ownValidate rc i =
        .ok (true, Node.regex v (some ()) (.str s), i)) := by
  constructor
  · intro msg hm
    simp [Node.ownValidate, hm]
  · intro hok
    simp [Node.ownValidate, hok]

/-- C6 witness: the pattern "[" fails to compile and is reported and
recorded; the pattern "abc" compiles and the matcher is cached. -/
theorem claim_C6_witness :
    rc0 "[" = .error "unexpected end of regular expression" ∧
    ((Node.regex Option.none Option.none (.str "[")).ownValidate rc0 emptyInfo =
      .ok (false, Node.regex Option.none Option.none (.str "["),
        (emptyInfo.addError "Regex compilation failed").setRegex "["
          "unexpected end of regular expression")) ∧
    rc0 "abc" = .ok () ∧
    (Node.regex Option.none Option.none (.str "abc")).ownValidate rc0 emptyInfo =
      .ok (true, Node.regex Option.none (some ()) (.str "abc"), emptyInfo) :=
  ⟨rfl,
    (claim_C6 rc0 Option.none Option.none "[" emptyInfo).1
      "unexpected end of regular expression" rfl,
    rfl,
    (claim_C6 rc0 Option.none Option.none "abc" emptyInfo).2 rfl⟩

/-- C7: Number construction attempts to coerce its argument to a float
and retains the raw value unchanged when coercion fails; Number
validation then returns true iff the stored value is a float, and
otherwise returns false and appends an error mentioning the stored
value. -/
theorem claim_C7 (parse : String → Option Rat) (rc : String → Except String Unit)
    (v : PyVal) (i : Info) :
    (floatCoerce parse v = Option.none →
      mkNumber parse v = Node.number Option.none v ∧
      v.isFloat = false ∧
      (mkNumber parse v).ownValidate rc i =
        .ok (false, mkNumber parse v,
          i.addError ("Failed to convert number to float! Got: " ++ v.pyStr))) ∧
    (∀ q : Rat, floatCoerce parse v = some q →
      mkNumber parse v = Node.number Option.none (.float q) ∧
      (mkNumber parse v).ownValidate rc i = .ok (true, mkNumber parse v, i)) := by
  constructor
  · intro h
    have hmk : mkNumber parse v = Node.number Option.none v := by
      unfold mkNumber; rw [h]
    have hv : v.isFloat = false := by
      cases v <;> simp_all [floatCoerce, PyVal.isFloat]
    refine ⟨hmk, hv, ?_⟩
    rw [hmk]
    simp [Node.ownValidate, hv]
  · intro q h
    have hmk : mkNumber parse v = Node.number Option.none (.float q) := by
      unfold mkNumber; rw [h]
    refine ⟨hmk, ?_⟩
    rw [hmk]
    simp [Node.ownValidate, PyVal.isFloat]

/-- C7 witness: Number("abc") keeps "abc" uncoerced and its validation
records an error mentioning "abc"; Number(5.0) keeps the float and
validates. -/
theorem claim_C7_witness :
    (floatCoerce parse0 (.str "abc") = Option.none ∧
      (mkNumber parse0 (.str "abc") = Node.number Option.none (.str "abc") ∧
        (PyVal.str "abc").isFloat = false ∧
        (mkNumber parse0 (.str "abc")).ownValidate rc0 emptyInfo =
          .ok (false, mkNumber parse0 (.str "abc"),
            emptyInfo.addError
              ("Failed to convert number to float! Got: " ++ (PyVal.str "abc").pyStr)))) ∧
    (floatCoerce parse0 (.float 5) = some 5 ∧
      (mkNumber parse0 (.float 5) = Node.number Option.none (.float 5) ∧
        (mkNumber parse0 (.float 5)).ownValidate rc0 emptyInfo =
          .ok (true, mkNumber parse0 (.float 5), emptyInfo))) :=
  ⟨⟨rfl, (claim_C7 parse0 rc0 (.str "abc") emptyInfo).1 rfl⟩,
   ⟨rfl, (claim_C7 parse0 rc0 (.float 5) emptyInfo).2 5 rfl⟩⟩

/-- C8 counterexample: the claim states that Constant validation returns
false and appends an error for every value other than exactly
True/False/None, naming the number 1 as an example.  Python's membership
test uses ==, and 1.0 == True, so Constant(1.0) validates as true with no
error appended. -/
theorem claim_C8_counterexample :
    (Node.constant Option.none (.float 1)).ownValidate rc0 emptyInfo =
      .ok (true, Node.constant Option.none (.float 1), emptyInfo) := by rfl

/-- C8 amended: Constant validation returns true iff the stored value
compares equal under Python == to one of True, False, or None — so
besides the three exact constants, numeric values equal to 1 or 0 also
pass — and for every other value it returns false and appends an error
mentioning that value. -/
theorem claim_C8_amended (rc : String → Except String Unit) (ob : Option Bool)
    (v : PyVal) (i : Info) :
    ((pyEq v (.bool true) || pyEq v (.bool false) || pyEq v PyVal.none) = true →
      (Node.constant ob v).ownValidate rc i = .ok (true, Node.constant ob v, i)) ∧
    ((pyEq v (.bool true) || pyEq v (.bool false) || pyEq v PyVal.none) = false →
      (Node.constant ob v).ownValidate rc i =
        .ok (false, Node.constant ob v,
          i.addError ("Invalid Constant! Got: " ++ v.pyStr))) := by
  constructor <;> intro h <;> simp [Node.ownValidate, h]

/-- C8 witness: Constant(True) validates; Constant("maybe") is invalid
with an error mentioning "maybe". -/
theorem claim_C8_witness :
    (Node.constant Option.none (.bool true)).ownValidate rc0 emptyInfo =
      .ok (true, Node.constant Option.none (.bool true), emptyInfo) ∧
    (Node.constant Option.none (.str "maybe")).ownValidate rc0 emptyInfo =
      .ok (false, Node.constant Option.none (.str "maybe"),
        emptyInfo.addError ("Invalid Constant! Got: " ++ (PyVal.str "maybe").pyStr)) :=
  ⟨(claim_C8_amended rc0 Option.none (.bool true) emptyInfo).1 rfl,
   (claim_C8_amended rc0 Option.none (.str "maybe") emptyInfo).2 rfl⟩

/-- C9 counterexample: the claim states that construction never fails for
any argument, including an arbitrary existing Node passed to Regex.  But
Regex.__init__ reads the given node's value attribute, and an Undefined
node has none, so Regex(Undefined()) raises AttributeError. -/
theorem claim_C9_counterexample :
    mkRegex (.node mkUndefined) = .error attributeError := by rfl

/-- C9 amended: construction of every node variant succeeds for any raw
argument value — including a non-numeric value passed to Number, which is
retained — and Regex given an existing node unwraps it by taking that
node's value attribute, which succeeds exactly for nodes that have one
(Regex, Literal, Number, Constant); a node without a value attribute
makes Regex construction raise AttributeError. -/
theorem claim_C9_amended (v pv : PyVal) (n : Node) (parse : String → Option Rat)
    (h : n.value? = some pv) :
    mkRegex (.val v) = .ok (Node.regex Option.none Option.none v) ∧
    mkRegex (.node n) = .ok (Node.regex Option.none Option.none pv) ∧
    mkNumber parse v = Node.number Option.none
      (match floatCoerce parse v with
        | some q => PyVal.float q
        | Option.none => v) := by
  refine ⟨rfl, ?_, ?_⟩
  · simp [mkRegex, h]
  · unfold mkNumber
    cases floatCoerce parse v <;> rfl

/-- C9 witness: Regex(Literal("x")) unwraps to the pattern "x"; Number
accepts the non-numeric value None. -/
theorem claim_C9_witness :
    (mkLiteral (.str "x")).value? = some (.str "x") ∧
    (mkRegex (.val PyVal.none) = .ok (Node.regex Option.none Option.none PyVal.none) ∧
      mkRegex (.node (mkLiteral (.str "x"))) =
        .ok (Node.regex Option.none Option.none (.str "x")) ∧
      mkNumber parse0 PyVal.none = Node.number Option.none
        (match floatCoerce parse0 PyVal.none with
          | some q => PyVal.float q
          | Option.none => PyVal.none)) :=
  ⟨rfl, claim_C9_amended PyVal.none (.str "x") (mkLiteral (.str "x")) parse0 rfl⟩

/-- C10 counterexample: the claim states that a freshly constructed node
of every variant has valid present and false.  No subclass __init__
calls Node.__init__, so a fresh LogicalOperator has no valid attribute at
all — in the model its valid field is Option.none, not some false. -/
theorem claim_C10_counterexample :
    (mkLogicalOperator "and" (mkLiteral (.str "a")) (mkLiteral (.str "b"))).validAttr
        = Option.none ∧
    ¬ (mkLogicalOperator "and" (mkLiteral (.str "a")) (mkLiteral (.str "b"))).validAttr
        = some false :=
  ⟨rfl, by decide⟩

/-- C10 amended: only the base Node initializer sets valid to False, and
no variant constructor calls it, so a freshly constructed node of every
variant has no valid attribute at all (Option.none in the model) until
validate first assigns it. -/
theorem claim_C10_amended (op c : String) (l r e : Node) (v : PyVal)
    (parse : String → Option Rat) (a : RegexArg) (w : Node)
    (h : mkRegex a = .ok w) :
    (mkLogicalOperator op l r).validAttr = Option.none ∧
    (mkNegateOperator e).validAttr = Option.none ∧
    (mkCompareOperator c l r).validAttr = Option.none ∧
    (mkContainsOperator l r).validAttr = Option.none ∧
    (mkMatchOperator l r).validAttr = Option.none ∧
    w.validAttr = Option.none ∧
    (mkLiteral v).validAttr = Option.none ∧
    (mkNumber parse v).validAttr = Option.none ∧
    (mkConstant v).validAttr = Option.none ∧
    mkUndefined.validAttr = Option.none ∧
    mkEmpty.validAttr = Option.none := by
  refine ⟨rfl, rfl, rfl, rfl, rfl, ?_, rfl, ?_, rfl, rfl, rfl⟩
  · cases a with
    | val v' =>
        simp only [mkRegex, Except.ok.injEq] at h
        rw [← h]; rfl
    | node m =>
        cases hv : m.value? with
        | some pv =>
            simp only [mkRegex, hv, Except.ok.injEq] at h
            rw [← h]; rfl
        | none => simp [mkRegex, hv] at h
  · unfold mkNumber
    cases floatCoerce parse v <;> rfl

/-- C10 witness: every constructor applied at concrete arguments yields a
node whose valid attribute is absent. -/
theorem claim_C10_witness :
    mkRegex (.val (.str "x")) = .ok (Node.regex Option.none Option.none (.str "x")) ∧
    ((mkLogicalOperator "and" mkUndefined mkEmpty).validAttr = Option.none ∧
      (mkNegateOperator mkUndefined).validAttr = Option.none ∧
      (mkCompareOperator "=" mkUndefined mkEmpty).validAttr = Option.none ∧
      (mkContainsOperator mkUndefined mkEmpty).validAttr = Option.none ∧
      (mkMatchOperator mkUndefined mkEmpty).validAttr = Option.none ∧
      (Node.regex Option.none Option.none (.str "x")).validAttr = Option.none ∧
      (mkLiteral (.str "v")).validAttr = Option.none ∧
      (mkNumber parse0 (.str "v")).validAttr = Option.none ∧
      (mkConstant (.str "v")).validAttr = Option.none ∧
      mkUndefined.validAttr = Option.none ∧
      mkEmpty.validAttr = Option.none) :=
  ⟨rfl,
    claim_C10_amended "and" "=" mkUndefined mkEmpty mkUndefined (.str "v") parse0
      (.val (.str "x")) (Node.regex Option.none Option.none (.str "x")) rfl⟩
